import Mathlib

/-!
Verification of nih-sftp-server (src/nih-sftp-server.c) against its
natural-language specification.

Shallow embedding conventions:
* Wire buffers are lists of octets (`List Nat`, each element intended < 256).
  The input-side accessors (`get_byte`, `get_uint32`, ...) consume a prefix of
  the list and return `Option` (the C code enforces the corresponding bound
  with `assert`; a failed assert is modelled as `none`).
* The output-side writers (`put_byte`, `put_uint32`, ...) produce byte lists.
* Machine integers are `Nat`/`Int`; wrap-around is made explicit with `% 2^32`
  where the C code can wrap (`obuff.count - hdr_size`).
* Host system calls (open/read/write/lseek/readdir/stat) are modelled as
  oracle parameters supplied to the handler functions; the handler logic
  itself is translated line by line from the C source.
* The directory iterator (`DIR *` with telldir/readdir/seekdir) is modelled as
  a list of entries plus a cursor position; `telldir` returns the position,
  `readdir` yields the entry at the position and advances, `seekdir` sets it.
-/

namespace NihSftp

/-! ### Protocol constants (src/nih-sftp-server.c lines 63-133) -/

def SSH_FXP_INIT : Nat := 1
def SSH_FXP_VERSION : Nat := 2
def SSH_FXP_STATUS : Nat := 101
def SSH_FXP_HANDLE : Nat := 102
def SSH_FXP_DATA : Nat := 103
def SSH_FXP_NAME : Nat := 104

def SSH_FX_OK : Nat := 0
def SSH_FX_EOF : Nat := 1
def SSH_FX_NO_SUCH_FILE : Nat := 2
def SSH_FX_PERMISSION_DENIED : Nat := 3
def SSH_FX_FAILURE : Nat := 4
def SSH_FX_BAD_MESSAGE : Nat := 5
def SSH_FX_OP_UNSUPPORTED : Nat := 8

def SSH_FILEXFER_ATTR_SIZE : Nat := 1
def SSH_FILEXFER_ATTR_UIDGID : Nat := 2
def SSH_FILEXFER_ATTR_PERMISSIONS : Nat := 4
def SSH_FILEXFER_ATTR_ACMODTIME : Nat := 8
def SSH_FILEXFER_ATTR_EXTENDED : Nat := 2147483648

def SSH_FXF_READ : Nat := 1
def SSH_FXF_WRITE : Nat := 2
def SSH_FXF_APPEND : Nat := 4
def SSH_FXF_CREAT : Nat := 8
def SSH_FXF_TRUNC : Nat := 16
def SSH_FXF_EXCL : Nat := 32

def MAX_ATTRS_BYTES : Nat := 32
def SFTP_PROTOCOL_VERSION : Nat := 3
def DEFAULT_FILE_PERM : Nat := 438   -- 0666 octal
def DEFAULT_DIR_PERM : Nat := 511    -- 0777 octal
def MAX_PACKET : Nat := 34000
def PERM_MASK : Nat := 511           -- 0777 octal
def MAX_HANDLES : Nat := 99
def MAX_HANDLE_DIGITS : Nat := 2

/-! ### Host (POSIX, Linux values) constants used by the translation -/

def O_RDONLY : Nat := 0
def O_WRONLY : Nat := 1
def O_RDWR : Nat := 2
def O_CREAT : Nat := 64    -- 0100 octal
def O_EXCL : Nat := 128    -- 0200 octal
def O_TRUNC : Nat := 512   -- 01000 octal
def O_APPEND : Nat := 1024 -- 02000 octal

def EPERM : Int := 1
def ENOENT : Int := 2
def EBADF : Int := 9
def EACCES : Int := 13
def EFAULT : Int := 14
def ENOTDIR : Int := 20
def EINVAL : Int := 22
def ENAMETOOLONG : Int := 36
def ELOOP : Int := 40

/-! ### Input-side wire codec (get_byte / get_uint32 / get_uint64 / get_string,
src lines 1187-1348).  Each consumes a prefix of the input byte list; the
C assert on remaining count becomes `none`. -/

def get_byte : List Nat → Option (Nat × List Nat)
  | [] => none
  | b :: rest => some (b, rest)

def get_uint32 : List Nat → Option (Nat × List Nat)
  | b0 :: b1 :: b2 :: b3 :: rest =>
      some (b0 * 16777216 + b1 * 65536 + b2 * 256 + b3, rest)
  | _ => none

def get_uint64 (l : List Nat) : Option (Nat × List Nat) := do
  let (hi, l) ← get_uint32 l
  let (lo, l) ← get_uint32 l
  some (hi * 4294967296 + lo, l)

def get_string (l : List Nat) : Option (List Nat × List Nat) := do
  let (len, rest) ← get_uint32 l
  if len ≤ rest.length then some (rest.take len, rest.drop len) else none

def get_data (l : List Nat) : Option (List Nat × List Nat) := get_string l

/-! ### Output-side wire codec (put_byte / put_uint32 / put_uint64 /
put_cstring, src lines 1202-1362), as pure byte-list producers. -/

def put_byte (b : Nat) : List Nat := [b % 256]

def put_uint32 (v : Nat) : List Nat :=
  [v / 16777216 % 256, v / 65536 % 256, v / 256 % 256, v % 256]

def put_uint64 (v : Nat) : List Nat :=
  put_uint32 (v / 4294967296 % 4294967296) ++ put_uint32 (v % 4294967296)

def put_cstring (s : List Nat) : List Nat := put_uint32 s.length ++ s

/-! ### Attribute record (attrs_t, src lines 161-170) and its codec
(get_attrs src lines 1365-1403, put_attrs src lines 1405-1426). -/

structure Attrs where
  flags : Nat
  permissions : Nat
  size : Nat
  uid : Nat
  gid : Nat
  atime : Nat
  mtime : Nat
deriving DecidableEq

def Attrs.zero : Attrs := ⟨0, 0, 0, 0, 0, 0, 0⟩

/-- Discard `count` (string,string) extension pairs (the EXTENDED branch of
get_attrs, src lines 1388-1401). -/
def drop_ext_pairs : Nat → List Nat → Option (List Nat)
  | 0, l => some l
  | n + 1, l => do
      let (_, l) ← get_string l
      let (_, l) ← get_string l
      drop_ext_pairs n l

/-- The `if (flags & SSH_FILEXFER_ATTR_SIZE)` block of get_attrs
(src lines 1370-1373): read size when present, else keep the memset 0. -/
def parse_size (flags : Nat) (l : List Nat) : Option (Nat × List Nat) :=
  if flags &&& SSH_FILEXFER_ATTR_SIZE ≠ 0 then get_uint64 l else some (0, l)

/-- The `if (flags & SSH_FILEXFER_ATTR_UIDGID)` block of get_attrs
(src lines 1374-1378): read uid then gid when present. -/
def parse_uidgid (flags : Nat) (l : List Nat) : Option (Nat × Nat × List Nat) := do
  let (uid, l) ← if flags &&& SSH_FILEXFER_ATTR_UIDGID ≠ 0 then get_uint32 l else some (0, l)
  let (gid, l) ← if flags &&& SSH_FILEXFER_ATTR_UIDGID ≠ 0 then get_uint32 l else some (0, l)
  some (uid, gid, l)

/-- The `if (flags & SSH_FILEXFER_ATTR_PERMISSIONS)` block of get_attrs
(src lines 1379-1382). -/
def parse_perm (flags : Nat) (l : List Nat) : Option (Nat × List Nat) :=
  if flags &&& SSH_FILEXFER_ATTR_PERMISSIONS ≠ 0 then get_uint32 l else some (0, l)

/-- The `if (flags & SSH_FILEXFER_ATTR_ACMODTIME)` block of get_attrs
(src lines 1383-1387): read atime then mtime when present. -/
def parse_times (flags : Nat) (l : List Nat) : Option (Nat × Nat × List Nat) := do
  let (atime, l) ← if flags &&& SSH_FILEXFER_ATTR_ACMODTIME ≠ 0 then get_uint32 l else some (0, l)
  let (mtime, l) ← if flags &&& SSH_FILEXFER_ATTR_ACMODTIME ≠ 0 then get_uint32 l else some (0, l)
  some (atime, mtime, l)

/-- The `if (flags & SSH_FILEXFER_ATTR_EXTENDED)` block of get_attrs
(src lines 1388-1401): discard count extension pairs. -/
def parse_ext (flags : Nat) (l : List Nat) : Option (List Nat) :=
  if flags &&& SSH_FILEXFER_ATTR_EXTENDED ≠ 0 then do
    let (count, l) ← get_uint32 l
    drop_ext_pairs count l
  else some l

def get_attrs (l : List Nat) : Option (Attrs × List Nat) := do
  let (flags, l) ← get_uint32 l
  let (size, l) ← parse_size flags l
  let (uid, gid, l) ← parse_uidgid flags l
  let (permissions, l) ← parse_perm flags l
  let (atime, mtime, l) ← parse_times flags l
  let l ← parse_ext flags l
  some (⟨flags, permissions, size, uid, gid, atime, mtime⟩, l)

/-- The four conditional field groups written by put_attrs
(src lines 1408-1425), one definition per `if (p_attrs->flags & ...)`. -/
def put_size (flags sz : Nat) : List Nat :=
  if flags &&& SSH_FILEXFER_ATTR_SIZE ≠ 0 then put_uint64 sz else []

def put_uidgid (flags u g : Nat) : List Nat :=
  if flags &&& SSH_FILEXFER_ATTR_UIDGID ≠ 0 then put_uint32 u ++ put_uint32 g else []

def put_perm (flags pm : Nat) : List Nat :=
  if flags &&& SSH_FILEXFER_ATTR_PERMISSIONS ≠ 0 then put_uint32 pm else []

def put_times (flags a m : Nat) : List Nat :=
  if flags &&& SSH_FILEXFER_ATTR_ACMODTIME ≠ 0 then put_uint32 a ++ put_uint32 m else []

def put_attrs (a : Attrs) : List Nat :=
  put_uint32 a.flags ++ put_size a.flags a.size ++ put_uidgid a.flags a.uid a.gid
    ++ put_perm a.flags a.permissions ++ put_times a.flags a.atime a.mtime

/-- Field bounds inherent in the C struct (uint32_t / uint64_t fields). -/
def Attrs.wf (a : Attrs) : Prop :=
  a.flags < 4294967296 ∧ a.size < 18446744073709551616 ∧ a.uid < 4294967296 ∧
  a.gid < 4294967296 ∧ a.permissions < 4294967296 ∧ a.atime < 4294967296 ∧
  a.mtime < 4294967296

/-- Fields not enabled by `flags` hold the `memset` value 0 (this is how every
record produced by `get_attrs` or `stat_to_attr` looks). -/
def Attrs.normalized (a : Attrs) : Prop :=
  (a.flags &&& SSH_FILEXFER_ATTR_SIZE = 0 → a.size = 0) ∧
  (a.flags &&& SSH_FILEXFER_ATTR_UIDGID = 0 → a.uid = 0 ∧ a.gid = 0) ∧
  (a.flags &&& SSH_FILEXFER_ATTR_PERMISSIONS = 0 → a.permissions = 0) ∧
  (a.flags &&& SSH_FILEXFER_ATTR_ACMODTIME = 0 → a.atime = 0 ∧ a.mtime = 0)

/-! ### Error mapping (errno_to_sftp, src lines 1468-1491). -/

def errno_to_sftp (e : Int) : Nat :=
  if e = 0 then SSH_FX_OK
  else if e = ENOENT ∨ e = ENOTDIR ∨ e = EBADF ∨ e = ELOOP then SSH_FX_NO_SUCH_FILE
  else if e = EPERM ∨ e = EACCES ∨ e = EFAULT then SSH_FX_PERMISSION_DENIED
  else if e = ENAMETOOLONG ∨ e = EINVAL then SSH_FX_BAD_MESSAGE
  else SSH_FX_FAILURE

/-! ### pflags translation (pflags_to_unix, src lines 1437-1465). -/

def pflags_to_unix (pflags : Nat) : Nat :=
  let flags :=
    if pflags &&& SSH_FXF_READ ≠ 0 ∧ pflags &&& SSH_FXF_WRITE ≠ 0 then O_RDWR
    else if pflags &&& SSH_FXF_READ ≠ 0 then O_RDONLY
    else if pflags &&& SSH_FXF_WRITE ≠ 0 then O_WRONLY
    else 0
  let flags := if pflags &&& SSH_FXF_CREAT ≠ 0 then flags ||| O_CREAT else flags
  let flags := if pflags &&& SSH_FXF_TRUNC ≠ 0 then flags ||| O_TRUNC else flags
  if pflags &&& SSH_FXF_EXCL ≠ 0 then flags ||| O_EXCL else flags

/-! ### INIT handling (sftp_init src lines 467-478 composed with the framing of
main, src lines 253-325, and the have_init == false branch of sftp_in,
src lines 367-379).  Models the processing of the very first inbound frame:
result is `none` when the C program asserts/aborts, otherwise the outbound
frame bytes (empty list = no frame sent) and the new have_init flag. -/

def process_first_frame (frame : List Nat) : Option (List Nat × Bool) := do
  let (payload_len, rest) ← get_uint32 frame
  if payload_len ≤ MAX_PACKET then
    if payload_len = 0 then
      some ([], false)
    else
      if payload_len ≤ rest.length then do
        let payload := rest.take payload_len
        let (opcode, p1) ← get_byte payload
        if opcode = SSH_FXP_INIT then do
          let (version, _) ← get_uint32 p1
          if SFTP_PROTOCOL_VERSION ≤ version then
            let out := put_byte SSH_FXP_VERSION ++ put_uint32 SFTP_PROTOCOL_VERSION
            some (put_uint32 out.length ++ out, true)
          else none
        else none
      else none
  else none

/-! ### Handle table (handle_use_t / fxp_handle_t, src lines 172-185) -/

inductive HandleUse where
  | free
  | file
  | dir
deriving DecidableEq

structure FxpHandle where
  use : HandleUse
  fd : Int
deriving DecidableEq

/-! ### C library strtoul (base 10) as used by get_handle.  glibc semantics:
skip leading C-locale whitespace, accept an optional sign, consume decimal
digits; the result is clamped to ULONG_MAX on overflow and negated modulo
2^64 for a minus sign; if no digits were consumed the end pointer equals the
start pointer.  The scan operates on the NUL-terminated character sequence
(an octet 0 stops every sub-scan since it is neither space, sign nor digit).
Returns (value, index of the end pointer). -/

def ULONG_MAX : Nat := 18446744073709551615

def isSpaceC (c : Nat) : Bool := c = 32 || (9 ≤ c && c ≤ 13)

def isDigitC (c : Nat) : Bool := 48 ≤ c && c ≤ 57

def spanWs : List Nat → Nat
  | [] => 0
  | c :: r => if isSpaceC c then spanWs r + 1 else 0

/-- Consume decimal digits, returning (accumulated value, digit count). -/
def digitSpanAux (acc : Nat) : List Nat → Nat × Nat
  | [] => (acc, 0)
  | c :: r =>
      if isDigitC c then
        let p := digitSpanAux (acc * 10 + (c - 48)) r
        (p.1, p.2 + 1)
      else (acc, 0)

def strtoul10 (s : List Nat) : Nat × Nat :=
  let w := spanWs s
  match s.drop w with
  | [] => (0, 0)
  | c :: r =>
    if c = 43 then
      let p := digitSpanAux 0 r
      if p.2 = 0 then (0, 0)
      else if ULONG_MAX < p.1 then (ULONG_MAX, w + 1 + p.2)
      else (p.1, w + 1 + p.2)
    else if c = 45 then
      let p := digitSpanAux 0 r
      if p.2 = 0 then (0, 0)
      else if ULONG_MAX < p.1 then (ULONG_MAX, w + 1 + p.2)
      else ((18446744073709551616 - p.1) % 18446744073709551616, w + 1 + p.2)
    else
      let p := digitSpanAux 0 (c :: r)
      if p.2 = 0 then (0, 0)
      else if ULONG_MAX < p.1 then (ULONG_MAX, w + p.2)
      else (p.1, w + p.2)

/-! ### Handle decoding (get_handle, src lines 1129-1164).  The wire string
is `s`; get_string NUL-terminates it in place, so strtoul sees `s ++ [0]`.
The check `*ep != 0` inspects the character at the end-pointer index within
that NUL-terminated buffer.  The handle table is a total map from 0-based
slot index to the slot's kind; a successful decode returns the 0-based slot
index (the C code returns `&handles[handle - 1]`). -/

def get_handle (s : List Nat) (table : Nat → HandleUse) : Option Nat :=
  if s.length ≠ MAX_HANDLE_DIGITS then none
  else
    let cstr := s ++ [0]
    let p := strtoul10 cstr
    if cstr.getD p.2 0 ≠ 0 then none
    else if p.1 = 0 then none
    else if MAX_HANDLES < p.1 then none
    else if table (p.1 - 1) = HandleUse.free then none
    else some (p.1 - 1)

/-! ### Responses.  Handlers produce at most one response; we record its
abstract shape (put_status / put_handle / DATA / NAME emission). -/

inductive Resp where
  | status : Nat → Nat → Resp
  | handleResp : Nat → Nat → Resp
  | dataResp : Nat → Nat → List Nat → Resp
  | nameResp : Nat → Nat → List (List Nat × Attrs) → Resp
deriving DecidableEq

/-! ### OPEN (sftp_open, src lines 480-520): the arguments the handler
passes to the host open() call, as parsed from the request payload
(the payload is the packet body after the opcode byte). -/

structure OpenCall where
  path : List Nat
  flags : Nat
  mode : Nat
deriving DecidableEq

def sftp_open (payload : List Nat) : Option OpenCall := do
  let (_id, l) ← get_uint32 payload
  let (sz_filename, l) ← get_string l
  let (pflags, l) ← get_uint32 l
  let (attrs, _) ← get_attrs l
  some ⟨sz_filename, pflags_to_unix pflags,
        if attrs.flags &&& SSH_FILEXFER_ATTR_PERMISSIONS ≠ 0 then attrs.permissions
        else DEFAULT_FILE_PERM⟩

/-! ### READ (sftp_read, src lines 558-613).  obCount is obuff.count at
handler entry (in the running server: MAX_PACKET - 4 = 33996); the host
lseek result is `seekRes` (some errno on failure) and the host read on the
already-seeked fd is `readFn len` (rerr errno, or rok bytes with the bytes
read).  `none` models a failed C assert (host read returned more than
requested). -/

inductive HostRead where
  | rerr : Int → HostRead
  | rok : List Nat → HostRead
deriving DecidableEq

def sftp_read (obCount id : Nat) (hOpt : Option FxpHandle) (_offset len0 : Nat)
    (seekRes : Option Int) (readFn : Nat → HostRead) : Option Resp :=
  let max_len := (obCount + 4294967296 - 9) % 4294967296
  let len := if max_len < len0 then max_len else len0
  match hOpt with
  | some h =>
    if h.use = HandleUse.file then
      match seekRes with
      | some e => some (Resp.status id (errno_to_sftp e))
      | none =>
        match readFn len with
        | HostRead.rerr e => some (Resp.status id (errno_to_sftp e))
        | HostRead.rok bs =>
          if bs.length = 0 then some (Resp.status id SSH_FX_EOF)
          else if bs.length ≤ len then some (Resp.dataResp id bs.length bs)
          else none
    else some (Resp.status id SSH_FX_FAILURE)
  | none => some (Resp.status id SSH_FX_FAILURE)

/-! ### WRITE (sftp_write, src lines 615-651).  The host write outcome is
`Sum.inl errno` (ret < 0 with that errno) or `Sum.inr n` (ret = n ≥ 0). -/

def sftp_write (id : Nat) (hOpt : Option FxpHandle) (_offset : Nat)
    (dataBytes : List Nat) (seekRes : Option Int) (writeRes : Sum Int Nat) : Resp :=
  match hOpt with
  | some h =>
    if h.use = HandleUse.file then
      match seekRes with
      | some e => Resp.status id (errno_to_sftp e)
      | none =>
        match writeRes with
        | Sum.inl e => Resp.status id (errno_to_sftp e)
        | Sum.inr n =>
          if n = dataBytes.length then Resp.status id SSH_FX_OK
          else Resp.status id SSH_FX_FAILURE
    else Resp.status id SSH_FX_FAILURE
  | none => Resp.status id SSH_FX_FAILURE

/-! ### stat translation (stat_to_attr, src lines 653-666). -/

structure StatRec where
  st_size : Nat
  st_uid : Nat
  st_gid : Nat
  st_mode : Nat
  st_atime : Nat
  st_mtime : Nat
deriving DecidableEq

def stat_to_attr (st : StatRec) : Attrs :=
  ⟨SSH_FILEXFER_ATTR_SIZE ||| SSH_FILEXFER_ATTR_UIDGID |||
     SSH_FILEXFER_ATTR_PERMISSIONS ||| SSH_FILEXFER_ATTR_ACMODTIME,
   st.st_mode, st.st_size, st.st_uid, st.st_gid, st.st_atime, st.st_mtime⟩

/-! ### READDIR (sftp_readdir, src lines 844-911).  The directory stream is
a list of entries with a cursor: telldir = cursor, readdir = entry at cursor
(advancing it), seekdir = set cursor.  Each entry carries its d_name bytes
and the fstatat outcome.  One do-while iteration: record dir_posn, read, skip
on stat failure, emit when the projected cost fits (the bytes actually
written are 2*(4+len) + 32 = the projection, since stat_to_attr sets all
four flags and put_attrs then emits exactly MAX_ATTRS_BYTES), seekdir back
when it does not fit and count > 0 — after which the C loop CONTINUES, since
the controlling expression `while (p_entry)` is still true.  `fuel` bounds
the number of iterations; `none` = the loop has not finished within fuel. -/

structure DirEntry where
  name : List Nat
  st : Option StatRec
deriving DecidableEq

structure RdState where
  pos : Nat
  obCount : Nat
  count : Nat
  emitted : List (List Nat × Attrs)
deriving DecidableEq

def readdirLoop : Nat → List DirEntry → RdState → Option RdState
  | 0, _, _ => none
  | fuel + 1, entries, s =>
    match entries.get? s.pos with
    | none => some s
    | some e =>
      match e.st with
      | none => readdirLoop fuel entries ⟨s.pos + 1, s.obCount, s.count, s.emitted⟩
      | some st =>
        if (e.name.length + 4) * 2 + MAX_ATTRS_BYTES ≤ s.obCount then
          readdirLoop fuel entries
            ⟨s.pos + 1, s.obCount - ((e.name.length + 4) * 2 + MAX_ATTRS_BYTES),
             s.count + 1, s.emitted ++ [(e.name, stat_to_attr st)]⟩
        else if 0 < s.count then
          readdirLoop fuel entries s
        else
          readdirLoop fuel entries ⟨s.pos + 1, s.obCount, s.count, s.emitted⟩

/-- The READDIR handler.  `obCount` is obuff.count at handler entry; the
NAME header (opcode, id, count placeholder) consumes 9 bytes before the
loop.  Source fidelity note: the only validity check is `if (!p_handle)`;
the handle's kind (`use`) is NOT inspected, so a FILE handle proceeds into
the iteration with whatever the slot's p_dir field designates (`entries`,
`startPos`). -/
def sftp_readdir (fuel : Nat) (id : Nat) (hOpt : Option FxpHandle)
    (entries : List DirEntry) (startPos : Nat) (obCount : Nat) : Option Resp :=
  match hOpt with
  | none => some (Resp.status id SSH_FX_FAILURE)
  | some _ =>
    match readdirLoop fuel entries ⟨startPos, obCount - 9, 0, []⟩ with
    | none => none
    | some s =>
      if 0 < s.count then some (Resp.nameResp id s.count s.emitted)
      else some (Resp.status id SSH_FX_EOF)

/-! ### Concrete demonstration data for counterexamples and witnesses -/

/-- Table whose 0-based slot 4 (wire handle "05") is an open file. -/
def cexTable : Nat → HandleUse := fun i => if i = 4 then HandleUse.file else HandleUse.free

/-- OPEN payload: id=1, filename "x", pflags=1 (READ), attrs with
PERMISSIONS flag and permissions = 0o4777 = 2559 (setuid bit + rwxrwxrwx). -/
def cexOpenPayload : List Nat :=
  [0, 0, 0, 1] ++ [0, 0, 0, 1, 120] ++ [0, 0, 0, 1] ++ [0, 0, 0, 4] ++ [0, 0, 9, 255]

def demoStat : StatRec := ⟨0, 0, 0, 0, 0, 0⟩

/-- Two statable entries with 1-byte names; each costs (1+4)*2+32 = 42
serialized bytes. -/
def demoEntries : List DirEntry := [⟨[97], some demoStat⟩, ⟨[98], some demoStat⟩]

def dirHandle : FxpHandle := ⟨HandleUse.dir, 3⟩

def fileHandle : FxpHandle := ⟨HandleUse.file, 3⟩

/-- The state the demo READDIR reaches after emitting the first entry with
handler-entry capacity 59: loop capacity 50 drops to 8, count 1, cursor on
the second entry, which needs 42 > 8 bytes. -/
def stuckState : RdState := ⟨1, 8, 1, [([97], stat_to_attr demoStat)]⟩

end NihSftp

namespace NihSftp

/-! ## Theorems -/

/-- C5: the errno-to-SFTP-status mapping is exactly: 0 maps to OK (0);
ENOENT, ENOTDIR, EBADF and ELOOP map to NO_SUCH_FILE (2); EPERM, EACCES and
EFAULT map to PERMISSION_DENIED (3); ENAMETOOLONG and EINVAL map to
BAD_MESSAGE (5); and every other errno value maps to FAILURE (4). -/
theorem errno_to_sftp_spec (e : Int)
    (h : e ∉ ([0, ENOENT, ENOTDIR, EBADF, ELOOP, EPERM, EACCES, EFAULT,
               ENAMETOOLONG, EINVAL] : List Int)) :
    errno_to_sftp 0 = 0 ∧
    errno_to_sftp ENOENT = 2 ∧ errno_to_sftp ENOTDIR = 2 ∧
    errno_to_sftp EBADF = 2 ∧ errno_to_sftp ELOOP = 2 ∧
    errno_to_sftp EPERM = 3 ∧ errno_to_sftp EACCES = 3 ∧
    errno_to_sftp EFAULT = 3 ∧
    errno_to_sftp ENAMETOOLONG = 5 ∧ errno_to_sftp EINVAL = 5 ∧
    errno_to_sftp e = 4 := by
  simp only [List.mem_cons, List.mem_singleton, not_or] at h
  obtain ⟨h0, hnoent, hnotdir, hbadf, hloop, hperm, hacces, hfault, hlong, hinval, -⟩ := h
  refine ⟨by decide, by decide, by decide, by decide, by decide, by decide,
    by decide, by decide, by decide, by decide, ?_⟩
  simp only [errno_to_sftp, ENOENT, ENOTDIR, EBADF, ELOOP, EPERM, EACCES,
    EFAULT, ENAMETOOLONG, EINVAL, SSH_FX_FAILURE] at *
  rw [if_neg h0, if_neg (by tauto), if_neg (by tauto), if_neg (by tauto)]

/-- Witness for C5 at the concrete unlisted errno value 99 (in fact the
theorem also re-checks every listed case). -/
theorem errno_to_sftp_spec_witness :
    errno_to_sftp 0 = 0 ∧
    errno_to_sftp ENOENT = 2 ∧ errno_to_sftp ENOTDIR = 2 ∧
    errno_to_sftp EBADF = 2 ∧ errno_to_sftp ELOOP = 2 ∧
    errno_to_sftp EPERM = 3 ∧ errno_to_sftp EACCES = 3 ∧
    errno_to_sftp EFAULT = 3 ∧
    errno_to_sftp ENAMETOOLONG = 5 ∧ errno_to_sftp EINVAL = 5 ∧
    errno_to_sftp 99 = 4 :=
  errno_to_sftp_spec 99 (by decide)

/-- C10: the APPEND bit (0x4) in pflags has no effect on the host open flags
computed by pflags_to_unix (masking it away changes nothing), and O_APPEND
(0x400 on this host) is never set in the result. -/
theorem pflags_append_ignored (p : Nat) :
    pflags_to_unix (p &&& 4294967291) = pflags_to_unix p ∧
    pflags_to_unix p &&& O_APPEND = 0 := by
  have e1 : (p &&& 4294967291) &&& 1 = p &&& 1 := by
    rw [Nat.and_assoc]; congr 1
  have e2 : (p &&& 4294967291) &&& 2 = p &&& 2 := by
    rw [Nat.and_assoc]; congr 1
  have e8 : (p &&& 4294967291) &&& 8 = p &&& 8 := by
    rw [Nat.and_assoc]; congr 1
  have e16 : (p &&& 4294967291) &&& 16 = p &&& 16 := by
    rw [Nat.and_assoc]; congr 1
  have e32 : (p &&& 4294967291) &&& 32 = p &&& 32 := by
    rw [Nat.and_assoc]; congr 1
  constructor
  · simp only [pflags_to_unix, SSH_FXF_READ, SSH_FXF_WRITE, SSH_FXF_CREAT,
      SSH_FXF_TRUNC, SSH_FXF_EXCL, O_RDWR, O_RDONLY, O_WRONLY, O_CREAT,
      O_TRUNC, O_EXCL, e1, e2, e8, e16, e32]
  · simp only [pflags_to_unix, SSH_FXF_READ, SSH_FXF_WRITE, SSH_FXF_CREAT,
      SSH_FXF_TRUNC, SSH_FXF_EXCL, O_RDWR, O_RDONLY, O_WRONLY, O_CREAT,
      O_TRUNC, O_EXCL, O_APPEND]
    split <;> split <;> split <;> [skip; skip; skip; skip; skip; skip;
      skip; skip] <;> split <;> first | decide | (split <;> first | decide | (split <;> decide))

/-- C1 counterexample: an OPEN request with the PERMISSIONS flag set and
permissions = 0o4777 (2559: setuid plus rwxrwxrwx).  The mode passed to the
host open call is 2559 unmasked, not 2559 &&& 0o777 = 0o777 as the claim
states: sftp_open applies no PERM_MASK. -/
theorem open_mode_unmasked_cex :
    (sftp_open cexOpenPayload).map OpenCall.mode = some 2559 ∧
    (sftp_open cexOpenPayload).map OpenCall.mode ≠ some (2559 &&& PERM_MASK) := by
  decide

/-- C1 (amended): for every OPEN request, the mode passed to the host open
call is attrs.permissions UNMASKED when the PERMISSIONS flag is set in the
request's ATTRS (no 0o777 mask is applied in sftp_open; only
chmod/fchmod/mkdir mask), and 0o666 when it is not set. -/
theorem open_mode_amended (payload l1 l2 l3 l4 : List Nat) (id pflags : Nat)
    (fname : List Nat) (attrs : Attrs)
    (h1 : get_uint32 payload = some (id, l1))
    (h2 : get_string l1 = some (fname, l2))
    (h3 : get_uint32 l2 = some (pflags, l3))
    (h4 : get_attrs l3 = some (attrs, l4)) :
    sftp_open payload =
      some ⟨fname, pflags_to_unix pflags,
            if attrs.flags &&& SSH_FILEXFER_ATTR_PERMISSIONS ≠ 0 then attrs.permissions
            else DEFAULT_FILE_PERM⟩ := by
  simp [sftp_open, h1, h2, h3, h4]

/-- Witness for C1 (amended) on a concrete OPEN request (id=1, filename "x",
pflags=READ, attrs.flags=0): the mode is the 0o666 default. -/
theorem open_mode_amended_witness :
    sftp_open ([0, 0, 0, 1] ++ [0, 0, 0, 1, 120] ++ [0, 0, 0, 1] ++ [0, 0, 0, 0]) =
      some ⟨[120], pflags_to_unix 1,
            if Attrs.zero.flags &&& SSH_FILEXFER_ATTR_PERMISSIONS ≠ 0 then Attrs.zero.permissions
            else DEFAULT_FILE_PERM⟩ :=
  open_mode_amended
    ([0, 0, 0, 1] ++ [0, 0, 0, 1, 120] ++ [0, 0, 0, 1] ++ [0, 0, 0, 0])
    [0, 0, 0, 1, 120, 0, 0, 0, 1, 0, 0, 0, 0] [0, 0, 0, 1, 0, 0, 0, 0] [0, 0, 0, 0] []
    1 1 [120] Attrs.zero (by decide) (by decide) (by decide) (by decide)

/-- Helper for C2: the state reached after the first demo entry is emitted
reproduces itself: the pending entry needs 42 bytes but only 8 remain and
count = 1 > 0, so the iteration seekdir()s back to the recorded position and
— the do-while condition still holding — re-reads the same entry, leaving
the state unchanged.  Hence the loop never finishes, for any fuel. -/
theorem readdirLoop_stuck (fuel : Nat) :
    readdirLoop fuel demoEntries stuckState = none := by
  induction fuel with
  | zero => rfl
  | succ n ih => exact ih

/-- C2: evidence of the code bug.  On a directory whose next entry does not
fit in the remaining output capacity while count > 0 (here: two 1-byte-name
entries, handler-entry capacity 59, so the second 42-byte entry cannot fit in
the 8 bytes left), sftp_readdir does NOT stop iterating after rewinding: the
do-while guard `while (p_entry)` is still true, the rewound entry is read
again, and the handler never terminates (no NAME response is ever sent) —
for every iteration budget the loop is unfinished. -/
theorem readdir_nonterminating_on_overflow (fuel : Nat) :
    sftp_readdir fuel 5 (some dirHandle) demoEntries 0 59 = none := by
  have h : readdirLoop fuel demoEntries ⟨0, 59 - 9, 0, []⟩ = none := by
    cases fuel with
    | zero => rfl
    | succ n => exact readdirLoop_stuck n
  simp only [sftp_readdir, h]

/-- C3: evidence of the code bug.  sftp_readdir checks only that the handle
decodes (`if (!p_handle)`), never that its kind is DIR: with a FILE-kind
handle it proceeds into the directory iteration on the slot's stale p_dir
field (here modelled as an empty stream) and answers STATUS(EOF), not the
STATUS(FAILURE) the claim requires.  By contrast READ and WRITE do check the
kind and answer STATUS(FAILURE) on a DIR-kind handle. -/
theorem readdir_wrong_kind_not_failure :
    sftp_readdir 1 7 (some fileHandle) [] 0 59 = some (Resp.status 7 SSH_FX_EOF) ∧
    sftp_readdir 1 7 (some fileHandle) [] 0 59 ≠ some (Resp.status 7 SSH_FX_FAILURE) ∧
    sftp_read 33996 7 (some dirHandle) 0 4 none (fun _ => HostRead.rok [1]) =
      some (Resp.status 7 SSH_FX_FAILURE) ∧
    sftp_write 7 (some dirHandle) 0 [1] none (Sum.inr 1) = Resp.status 7 SSH_FX_FAILURE := by
  decide

/-- C6: for every READ request on a valid FILE handle, the requested length
is first clamped to the output buffer's remaining capacity minus 9 (the DATA
header: opcode + id + length); then, after a successful absolute seek, a
host read error yields STATUS with the mapped errno, a zero-byte read yields
STATUS(EOF), and a read of n > 0 bytes yields DATA carrying id, length n and
exactly the n bytes read (n may be less than the requested length). -/
theorem sftp_read_spec (obCount id offset len : Nat) (h : FxpHandle)
    (readFn : Nat → HostRead)
    (hcap : 9 ≤ obCount) (hcap2 : obCount < 4294967296)
    (hfile : h.use = HandleUse.file)
    (hshort : ∀ bs, readFn (min len (obCount - 9)) = HostRead.rok bs →
       bs.length ≤ min len (obCount - 9)) :
    sftp_read obCount id (some h) offset len none readFn =
      some (match readFn (min len (obCount - 9)) with
        | HostRead.rerr e => Resp.status id (errno_to_sftp e)
        | HostRead.rok bs =>
            if bs.length = 0 then Resp.status id SSH_FX_EOF
            else Resp.dataResp id bs.length bs) := by
  have hml : (obCount + 4294967296 - 9) % 4294967296 = obCount - 9 := by omega
  have hclamp : (if obCount - 9 < len then obCount - 9 else len) = min len (obCount - 9) := by
    split <;> omega
  simp only [sftp_read, hml, hclamp, hfile, if_true]
  cases hr : readFn (min len (obCount - 9)) with
  | rerr e => simp
  | rok bs =>
    by_cases hb : bs.length = 0
    · simp [hb]
    · simp [hb, hshort bs hr]

/-- Witness for C6: a concrete READ with server capacity 33996, request
length 100 and a host read returning two bytes gives DATA(9, 2, [10, 11]). -/
theorem sftp_read_spec_witness :
    sftp_read 33996 9 (some fileHandle) 0 100 none (fun _ => HostRead.rok [10, 11]) =
      some (Resp.dataResp 9 2 [10, 11]) :=
  sftp_read_spec 33996 9 0 100 fileHandle (fun _ => HostRead.rok [10, 11])
    (by decide) (by decide) rfl
    (by intro bs hbs; cases hbs; decide)

/-- C7: for every WRITE request on a valid FILE handle, after a successful
absolute seek: a host write error yields STATUS with the mapped errno, a
write of exactly the request's data length yields STATUS(OK), and a short
write without error yields STATUS(FAILURE). -/
theorem sftp_write_spec (id offset : Nat) (h : FxpHandle) (dataBytes : List Nat)
    (writeRes : Sum Int Nat) (hfile : h.use = HandleUse.file) :
    (∀ e, writeRes = Sum.inl e →
        sftp_write id (some h) offset dataBytes none writeRes =
          Resp.status id (errno_to_sftp e)) ∧
    (writeRes = Sum.inr dataBytes.length →
        sftp_write id (some h) offset dataBytes none writeRes = Resp.status id SSH_FX_OK) ∧
    (∀ n, writeRes = Sum.inr n → n < dataBytes.length →
        sftp_write id (some h) offset dataBytes none writeRes =
          Resp.status id SSH_FX_FAILURE) := by
  refine ⟨?_, ?_, ?_⟩
  · intro e he; subst he; simp [sftp_write, hfile]
  · intro he; subst he; simp [sftp_write, hfile]
  · intro n hn hlt; subst hn; simp [sftp_write, hfile, Nat.ne_of_lt hlt]

/-- Witness for C7: a full 3-byte write on a FILE handle answers STATUS(OK). -/
theorem sftp_write_spec_witness :
    sftp_write 4 (some fileHandle) 0 [1, 2, 3] none (Sum.inr 3) = Resp.status 4 SSH_FX_OK :=
  (sftp_write_spec 4 0 fileHandle [1, 2, 3] (Sum.inr 3) rfl).2.1 rfl

/-- C8: processing the first frame 00 00 00 05 | 01 00 00 00 03 (INIT with
client version 3) transitions the server to the Active state (have_init true)
and emits exactly the frame 00 00 00 05 | 02 00 00 00 03 (VERSION, u32 3, no
extension pairs). -/
theorem init_version_frame :
    process_first_frame [0, 0, 0, 5, 1, 0, 0, 0, 3] =
      some ([0, 0, 0, 5, 2, 0, 0, 0, 3], true) := by
  decide

/-- C4 counterexample: the two-byte wire handle "+5" (bytes 43, 53) contains
non-digit content (43 is not a digit), yet decoding ACCEPTS it — strtoul
consumes the sign — and maps it to slot index 4 of a table whose slot 4 is
an open file.  The claim says any string with non-digit content is
rejected. -/
theorem get_handle_plus_cex :
    get_handle [43, 53] cexTable = some 4 ∧ isDigitC 43 = false := by
  decide

/-- C4 (amended): decoding rejects every string whose length differs from
MAX_HANDLE_DIGITS (2); and on all-digit two-byte strings it rejects exactly
value zero, values above MAX_HANDLES (99, impossible with two digits) and
FREE slots, accepting every other such string and mapping it to the slot at
the decoded 1-based index.  Non-digit content however is not always
rejected: strtoul also accepts forms with leading C whitespace or a sign and
stops at an embedded NUL, so two-byte strings such as "+5", " 5" or "5\x00"
decode like "05". -/
theorem get_handle_amended (c1 c2 : Nat) (s : List Nat) (table : Nat → HandleUse)
    (h1 : isDigitC c1 = true) (h2 : isDigitC c2 = true) (hs : s.length ≠ 2)
    (h3 : 10 * (c1 - 48) + (c2 - 48) ≤ 99) :
    get_handle s table = none ∧
    get_handle [c1, c2] table =
      (if 10 * (c1 - 48) + (c2 - 48) = 0 ∨ 99 < 10 * (c1 - 48) + (c2 - 48) ∨
          table (10 * (c1 - 48) + (c2 - 48) - 1) = HandleUse.free then none
       else some (10 * (c1 - 48) + (c2 - 48) - 1)) := by
  simp only [isDigitC, Bool.and_eq_true, decide_eq_true_eq] at h1 h2
  obtain ⟨h1a, h1b⟩ := h1
  obtain ⟨h2a, h2b⟩ := h2
  constructor
  · simp [get_handle, MAX_HANDLE_DIGITS, hs]
  · have hsp : isSpaceC c1 = false := by
      simp only [isSpaceC, Bool.or_eq_false_iff, Bool.and_eq_false_iff]
      refine ⟨by simp only [decide_eq_false_iff_not]; omega, Or.inr ?_⟩
      simp only [decide_eq_false_iff_not]; omega
    have hd1 : isDigitC c1 = true := by
      simp only [isDigitC, Bool.and_eq_true, decide_eq_true_eq]; omega
    have hd2 : isDigitC c2 = true := by
      simp only [isDigitC, Bool.and_eq_true, decide_eq_true_eq]; omega
    have hd0 : isDigitC 0 = false := by decide
    have hc43 : ¬ c1 = 43 := by omega
    have hc45 : ¬ c1 = 45 := by omega
    have hstr : strtoul10 [c1, c2, 0] = ((c1 - 48) * 10 + (c2 - 48), 2) := by
      have hUL : ¬ ULONG_MAX < (c1 - 48) * 10 + (c2 - 48) := by
        simp only [ULONG_MAX]; omega
      simp [strtoul10, spanWs, digitSpanAux, hsp, hd1, hd2, hd0, hc43, hc45, hUL]
    have hval : (c1 - 48) * 10 + (c2 - 48) = 10 * (c1 - 48) + (c2 - 48) := by ring
    rw [hval] at hstr
    have h99 : ¬ (99 < 10 * (c1 - 48) + (c2 - 48)) := by omega
    by_cases hv : 10 * (c1 - 48) + (c2 - 48) = 0 <;>
      by_cases ht : table (10 * (c1 - 48) + (c2 - 48) - 1) = HandleUse.free <;>
        simp [get_handle, MAX_HANDLE_DIGITS, MAX_HANDLES, hstr, hv, ht, h99,
          List.getD_cons_succ, List.getD_cons_zero]

/-- Witness for C4 (amended): "05" (bytes 48, 53) decodes to slot index 4 of
the demo table (whose slot 4 holds a file); the one-byte string [49] is
rejected for its length. -/
theorem get_handle_amended_witness :
    get_handle [49] cexTable = none ∧
    get_handle [48, 53] cexTable =
      (if 10 * (48 - 48) + (53 - 48) = 0 ∨ 99 < 10 * (48 - 48) + (53 - 48) ∨
          cexTable (10 * (48 - 48) + (53 - 48) - 1) = HandleUse.free then none
       else some (10 * (48 - 48) + (53 - 48) - 1)) :=
  get_handle_amended 48 53 [49] cexTable (by decide) (by decide) (by decide) (by decide)

/-- Helper: reading back a written uint32 recovers the value and leaves the
remaining stream untouched. -/
theorem get_uint32_put (x : Nat) (r : List Nat) (hx : x < 4294967296) :
    get_uint32 (put_uint32 x ++ r) = some (x, r) := by
  simp [put_uint32, get_uint32]
  omega

theorem get_uint32_put_nil (x : Nat) (hx : x < 4294967296) :
    get_uint32 (put_uint32 x) = some (x, []) := by
  simpa using get_uint32_put x [] hx

/-- Helper: reading back a written uint64 recovers the value. -/
theorem get_uint64_put (x : Nat) (r : List Nat) (hx : x < 18446744073709551616) :
    get_uint64 (put_uint64 x ++ r) = some (x, r) := by
  have h1 : x / 4294967296 % 4294967296 < 4294967296 := Nat.mod_lt _ (by norm_num)
  have h2 : x % 4294967296 < 4294967296 := Nat.mod_lt _ (by norm_num)
  simp [put_uint64, get_uint64, List.append_assoc, get_uint32_put _ _ h1,
    get_uint32_put _ _ h2]
  omega

theorem get_uint64_put_nil (x : Nat) (hx : x < 18446744073709551616) :
    get_uint64 (put_uint64 x) = some (x, []) := by
  simpa using get_uint64_put x [] hx

/-- Helper: each read-back stage recovers what the matching put stage wrote
(SIZE group). -/
theorem parse_size_put (flags sz : Nat) (hsz : sz < 18446744073709551616)
    (hz : flags &&& SSH_FILEXFER_ATTR_SIZE = 0 → sz = 0) (r : List Nat) :
    parse_size flags (put_size flags sz ++ r) = some (sz, r) := by
  by_cases b : flags &&& SSH_FILEXFER_ATTR_SIZE = 0 <;>
    simp [parse_size, put_size, b, get_uint64_put _ _ hsz, hz]

/-- Helper: read-back of the UIDGID group. -/
theorem parse_uidgid_put (flags u g : Nat) (hu : u < 4294967296) (hg : g < 4294967296)
    (hz : flags &&& SSH_FILEXFER_ATTR_UIDGID = 0 → u = 0 ∧ g = 0) (r : List Nat) :
    parse_uidgid flags (put_uidgid flags u g ++ r) = some (u, g, r) := by
  by_cases b : flags &&& SSH_FILEXFER_ATTR_UIDGID = 0 <;>
    simp [parse_uidgid, put_uidgid, b, List.append_assoc,
      get_uint32_put _ _ hu, get_uint32_put _ _ hg, hz]

/-- Helper: read-back of the PERMISSIONS group. -/
theorem parse_perm_put (flags pm : Nat) (hpm : pm < 4294967296)
    (hz : flags &&& SSH_FILEXFER_ATTR_PERMISSIONS = 0 → pm = 0) (r : List Nat) :
    parse_perm flags (put_perm flags pm ++ r) = some (pm, r) := by
  by_cases b : flags &&& SSH_FILEXFER_ATTR_PERMISSIONS = 0 <;>
    simp [parse_perm, put_perm, b, get_uint32_put _ _ hpm, hz]

/-- Helper: read-back of the ACMODTIME group. -/
theorem parse_times_put (flags a m : Nat) (ha : a < 4294967296) (hm : m < 4294967296)
    (hz : flags &&& SSH_FILEXFER_ATTR_ACMODTIME = 0 → a = 0 ∧ m = 0) (r : List Nat) :
    parse_times flags (put_times flags a m ++ r) = some (a, m, r) := by
  by_cases b : flags &&& SSH_FILEXFER_ATTR_ACMODTIME = 0 <;>
    simp [parse_times, put_times, b, List.append_assoc,
      get_uint32_put _ _ ha, get_uint32_put _ _ hm, hz]

/-- Helper: read-back of the ACMODTIME group at the end of the stream. -/
theorem parse_times_put_nil (flags a m : Nat) (ha : a < 4294967296) (hm : m < 4294967296)
    (hz : flags &&& SSH_FILEXFER_ATTR_ACMODTIME = 0 → a = 0 ∧ m = 0) :
    parse_times flags (put_times flags a m) = some (a, m, []) := by
  simpa using parse_times_put flags a m ha hm hz []

/-- Helper: the ATTRS serialization never exceeds MAX_ATTRS_BYTES (32):
4 (flags) + 8 (size) + 8 (uid,gid) + 4 (permissions) + 8 (atime,mtime). -/
theorem put_attrs_length (a : Attrs) : (put_attrs a).length ≤ MAX_ATTRS_BYTES := by
  simp only [put_attrs, put_size, put_uidgid, put_perm, put_times, MAX_ATTRS_BYTES]
  split_ifs <;> simp [put_uint32, put_uint64]

/-- C9 counterexample: the record with flags = 0 but size = 1 serializes to
just the flags word [0,0,0,0]; reading that back yields the all-zero record,
not the original.  The claim quantifies over every record without EXTENDED,
so it fails on records whose gated-off fields are nonzero. -/
theorem attrs_roundtrip_cex :
    put_attrs ⟨0, 0, 1, 0, 0, 0, 0⟩ = [0, 0, 0, 0] ∧
    get_attrs (put_attrs ⟨0, 0, 1, 0, 0, 0, 0⟩) ≠ some (⟨0, 0, 1, 0, 0, 0, 0⟩, []) := by
  decide

/-- C9 (amended): the ATTRS codec round-trips on every well-formed record
whose flags do not include EXTENDED and whose fields not enabled by flags
are zero (as every record produced by get_attrs or stat_to_attr is): reading
back the output serialization (flags, then in fixed order the fields gated
by SIZE, UIDGID, PERMISSIONS, ACMODTIME) yields the same record; and the
output serialization of any record — in particular a fully populated one —
occupies at most 32 bytes (MAX_ATTRS_BYTES). -/
theorem attrs_roundtrip_amended (a : Attrs) (hwf : a.wf) (hnorm : a.normalized)
    (hext : a.flags &&& SSH_FILEXFER_ATTR_EXTENDED = 0) :
    get_attrs (put_attrs a) = some (a, []) ∧ (put_attrs a).length ≤ MAX_ATTRS_BYTES := by
  refine ⟨?_, put_attrs_length a⟩
  simp only [Attrs.wf] at hwf
  simp only [Attrs.normalized] at hnorm
  obtain ⟨f, pm, sz, u, g, a1, m1⟩ := a
  obtain ⟨hf, hsz, hu, hg, hpm, ha1, hm1⟩ := hwf
  obtain ⟨hn1, hn2, hn4, hn8⟩ := hnorm
  simp only [get_attrs, put_attrs, List.append_assoc, Option.bind_eq_bind,
    Option.some_bind', get_uint32_put _ _ hf,
    parse_size_put _ _ hsz hn1, parse_uidgid_put _ _ _ hu hg hn2,
    parse_perm_put _ _ hpm hn4, parse_times_put_nil _ _ _ ha1 hm1 hn8,
    parse_ext, hext, ne_eq, eq_self_iff_true, not_true_eq_false, ite_false]

/-- Witness for C9 (amended) on a fully populated record (all four flag
bits): the round-trip holds and the serialization fits in 32 bytes. -/
theorem attrs_roundtrip_amended_witness :
    get_attrs (put_attrs ⟨15, 511, 123456789, 1000, 1001, 111, 222⟩) =
      some (⟨15, 511, 123456789, 1000, 1001, 111, 222⟩, []) ∧
    (put_attrs ⟨15, 511, 123456789, 1000, 1001, 111, 222⟩).length ≤ MAX_ATTRS_BYTES :=
  attrs_roundtrip_amended ⟨15, 511, 123456789, 1000, 1001, 111, 222⟩
    (by simp [Attrs.wf]) (by simp [Attrs.normalized]; decide) (by decide)

end NihSftp
